import Mathlib

/-!
Shallow embedding of the `ecc` synthetic-data pipeline
(`src/ecc/dgp/generate.py`, `src/ecc/dgp/schemas.py`, `src/ecc/utils.py`,
`src/ecc/config.py`).

Floating-point values are modelled as rationals.  The global numpy random
generator is modelled as an explicit state `RandState = (seed, call index)`
threaded through the generators; the concrete draw values, together with the
transcendental functions `exp` and `sqrt`, are supplied by an abstract
`Oracle` whose fields carry exactly the guarantees the underlying library
provides (Beta draws lie in `[0,1]`, `exp` is positive, a Binomial(1, p) draw
is at most 1, `sqrt 0 = 0`).  A value that numpy/pandas would hold as NaN is
modelled as `Option.none`, and a Python exception as `Except.error`.
-/

set_option autoImplicit false

namespace ECC

/-- The state of the process-global pseudo-random generator: the seed last
installed by `set_seed` and the number of drawing calls made since. -/
abbrev RandState : Type := ℤ × ℕ

/-- `utils.set_seed`: reinitialises the global generator, discarding the
previous state entirely. -/
def set_seed (seed : ℤ) (_st : RandState) : RandState := (seed, 0)

/-- Abstract source of random draws and of the transcendental functions used
by the generators.  Each draw function receives the current seed, the index
of the drawing call since the last `set_seed`, the distribution parameters,
and the index of the element inside the vectorised call. -/
structure Oracle where
  /-- `np.exp` -/
  exp : ℚ → ℚ
  /-- `np.exp` is strictly positive. -/
  exp_pos : ∀ x, 0 < exp x
  /-- `np.sqrt` (used inside `np.std`) -/
  sqrt : ℚ → ℚ
  /-- `np.sqrt 0 = 0`. -/
  sqrt_zero : sqrt 0 = 0
  /-- `np.random.beta a b` -/
  beta : ℤ → ℕ → ℚ → ℚ → ℕ → ℚ
  /-- Beta draws lie in the unit interval. -/
  beta_mem : ∀ s c a b i, 0 ≤ beta s c a b i ∧ beta s c a b i ≤ 1
  /-- `np.random.lognormal mean sigma` -/
  lognormal : ℤ → ℕ → ℚ → ℚ → ℕ → ℚ
  /-- `np.random.poisson lam` (vector rate) -/
  poisson : ℤ → ℕ → List ℚ → ℕ → ℕ
  /-- `np.random.normal loc scale` -/
  normal : ℤ → ℕ → ℚ → ℚ → ℕ → ℚ
  /-- `np.random.binomial 1 p` (vector probability) -/
  binomial1 : ℤ → ℕ → List ℚ → ℕ → ℕ
  /-- A Binomial(1, p) draw is 0 or 1. -/
  binomial1_le : ∀ s c ps i, binomial1 s c ps i ≤ 1

/-- Python exceptions raised by the pipeline, with the data their messages
carry. -/
inductive ValError where
  /-- numpy `ValueError: negative dimensions are not allowed` (negative
  `size=` argument of a draw). -/
  | negativeDimensions : ValError
  /-- numpy `ValueError` for a negative repeat count in `np.repeat`. -/
  | negativeRepeats : ValError
  /-- numpy `ValueError` from `np.random.binomial` when some `p` is NaN or
  outside `[0, 1]`. -/
  | badBinomialP : ValError
  /-- `schemas._require_columns` failure: table name and missing columns. -/
  | missingColumns (table : String) (missing : List String) : ValError
  /-- `schemas._require_no_nulls` failure: table name and offending columns. -/
  | nullColumns (table : String) (cols : List String) : ValError
  /-- `schemas._require_range` failure: table, column, bounds, and the number
  of out-of-range rows. -/
  | outOfRange (table : String) (col : String) (lo hi : ℚ) (rows : ℕ) : ValError
  /-- `user_week: 'week' must start at 1`. -/
  | mustStartAtOne (table : String) (col : String) : ValError
  /-- `user_week: 'n_txn' must be non-negative`. -/
  | mustBeNonNeg (table : String) (col : String) : ValError
deriving DecidableEq, Repr

/-- Mean of a list of rationals (`np.mean`); on the empty list the Python
value is NaN, but every use either guards emptiness or discards the result,
so the Lean junk value `0` is never observable. -/
def listMean (xs : List ℚ) : ℚ := xs.sum / (xs.length : ℚ)

/-- Population variance (`np.std` squared). -/
def listVar (xs : List ℚ) : ℚ := listMean (xs.map (fun v => (v - listMean xs) ^ 2))

/-- `generate._sigmoid`: `1 / (1 + exp (-x))`. -/
def sigmoid (O : Oracle) (x : ℚ) : ℚ := 1 / (1 + O.exp (-x))

/-- `generate._zscore`: `(x - mean x) / std x`, or all zeros when the
population standard deviation is zero.  (On the empty input Python takes the
other branch, NaN being unequal to 0, but both branches return the empty
array.) -/
def zscore (O : Oracle) (xs : List ℚ) : List ℚ :=
  let mu := listMean xs
  let sigma := O.sqrt (listMean (xs.map (fun v => (v - mu) ^ 2)))
  if sigma = 0 then xs.map (fun _ => 0)
  else xs.map (fun v => (v - mu) / sigma)

/-- `generate.DGPParams` with its defaults. -/
structure DGPParams where
  alpha_c : ℚ := 1
  b_f : ℚ := 6/5
  b_c : ℚ := 1
  b_e : ℚ := 1/5
  sigma_c_week : ℚ := 3/5
  alpha_e : ℚ := -9/5
  tau_e : ℚ := 2
  g_c : ℚ := 4/5
  g_e : ℚ := 2/5
  g_f : ℚ := 3/10
  sigma_e : ℚ := 1/2
  alpha_n : ℚ := 11/5
  beta_ne : ℚ := 11/20
  alpha_r : ℚ := -3/10
  delta_e : ℚ := 7/5
  delta_f : ℚ := 2/5
  delta_c : ℚ := 1/10
  tau_r : ℚ := 4/5
  kappa_r : ℚ := 1
  sigma_r : ℚ := 2/5
deriving DecidableEq, Repr, Inhabited

/-- `config.Defaults`. -/
structure Defaults where
  seed : ℤ := 7
  n_users : ℤ := 25000
  n_weeks : ℤ := 8
  t0_week : ℤ := 1
  retention_week : ℤ := 5
deriving DecidableEq, Repr, Inhabited

/-- One row of the trait table produced by `generate_user_traits`. -/
structure UserTraitsRow where
  user_id : ℤ
  feed_quality : ℚ
  txn_complexity : ℚ
  baseline_engagement : ℚ
  feed_quality_z : ℚ
  txn_complexity_z : ℚ
  baseline_engagement_z : ℚ
deriving DecidableEq, Repr, Inhabited

/-- One row of the user-week table produced by `generate_user_week`. -/
structure UserWeekRow where
  user_id : ℤ
  week : ℤ
  n_txn : ℕ
  confidence : ℚ
  edit_rate : ℚ
deriving DecidableEq, Repr, Inhabited

/-- One row of the user table returned by `build_wk4_retention`: the traits
plus the two diagnostic aggregates and the binary outcome.  The aggregates
are `Option ℚ` because the pandas column can hold NaN. -/
structure UserRetRow where
  base : UserTraitsRow
  conf_mean : Option ℚ
  edit_mean : Option ℚ
  wk4_retention : ℕ
deriving DecidableEq, Repr, Inhabited

/-- A vectorised draw of `n` values from one distribution: one drawing call,
advancing the call counter once. -/
def drawVec (f : ℤ → ℕ → ℕ → ℚ) (n : ℕ) (st : RandState) : List ℚ × RandState :=
  ((List.range n).map (f st.1 st.2), (st.1, st.2 + 1))

/-- A vectorised nonnegative-integer draw (Poisson). -/
def drawVecNat (f : ℤ → ℕ → ℕ → ℕ) (n : ℕ) (st : RandState) : List ℕ × RandState :=
  ((List.range n).map (f st.1 st.2), (st.1, st.2 + 1))

/-- `generate.generate_user_traits`.  A negative `n_users` makes the first
numpy draw (`np.random.beta` with `size = n_users`) raise
`ValueError: negative dimensions are not allowed` before drawing anything;
`n_users = 0` succeeds with an empty table.  The function itself performs no
input validation. -/
def generate_user_traits (O : Oracle) (n_users : ℤ) (seed : ℤ) (st0 : RandState) :
    Except ValError (List UserTraitsRow) × RandState :=
  let st := set_seed seed st0
  if n_users < 0 then (.error .negativeDimensions, st)
  else
    let n := n_users.toNat
    let (feed_quality, st) := drawVec (fun s c => O.beta s c 5 (11/5)) n st
    let (txn_complexity, st) := drawVec (fun s c => O.lognormal s c 0 (3/5)) n st
    let (baseline_engagement, st) := drawVec (fun s c => O.lognormal s c 0 (7/10)) n st
    let fq_z := zscore O feed_quality
    let tc_z := zscore O txn_complexity
    let be_z := zscore O baseline_engagement
    let rows := (List.range n).map (fun (i : ℕ) =>
      { user_id := (i : ℤ) + 1
        feed_quality := feed_quality.getD i 0
        txn_complexity := txn_complexity.getD i 0
        baseline_engagement := baseline_engagement.getD i 0
        feed_quality_z := fq_z.getD i 0
        txn_complexity_z := tc_z.getD i 0
        baseline_engagement_z := be_z.getD i 0 : UserTraitsRow })
    (.ok rows, st)

/-- `generate.generate_user_week`.  `np.repeat(ids, n_weeks)` with a negative
repeat count raises; otherwise row `k` (for `k < n_users * n_weeks`) belongs
to user `k / n_weeks` of `df_users` and to week `k % n_weeks + 1`, matching
the `np.repeat` / `np.tile` layout. -/
def generate_user_week (O : Oracle) (df_users : List UserTraitsRow) (n_weeks : ℤ)
    (p : DGPParams) (seed : ℤ) (st0 : RandState) :
    Except ValError (List UserWeekRow) × RandState :=
  let st := set_seed seed st0
  if n_weeks < 0 then (.error .negativeRepeats, st)
  else
    let W := n_weeks.toNat
    let M := df_users.length * W
    let userAt : ℕ → UserTraitsRow := fun k => df_users.getD (k / W) default
    let lam : List ℚ :=
      (List.range M).map (fun k => O.exp (p.alpha_n + p.beta_ne * (userAt k).baseline_engagement_z))
    let (n_txn, st) := drawVecNat (fun s c => O.poisson s c lam) M st
    let (u, st) := drawVec (fun s c => O.normal s c 0 p.sigma_c_week) M st
    let (eps, st) := drawVec (fun s c => O.normal s c 0 p.sigma_e) M st
    let rows := (List.range M).map (fun k =>
      let usr := userAt k
      let confidence := sigmoid O
        (p.alpha_c + p.b_f * usr.feed_quality_z - p.b_c * usr.txn_complexity_z
          + p.b_e * usr.baseline_engagement_z + u.getD k 0)
      let edit_rate := sigmoid O
        (p.alpha_e - p.tau_e * confidence + p.g_c * usr.txn_complexity_z
          + p.g_e * usr.baseline_engagement_z + p.g_f * (-usr.feed_quality_z) + eps.getD k 0)
      { user_id := usr.user_id
        week := ((k % W : ℕ) : ℤ) + 1
        n_txn := n_txn.getD k 0
        confidence := confidence
        edit_rate := edit_rate : UserWeekRow })
    (.ok rows, st)

/-- `list(range(t0_week, t0_week + 4))` in `build_wk4_retention`. -/
def exposure_weeks (t0_week : ℤ) : List ℤ :=
  (List.range 4).map (fun i => t0_week + (i : ℤ))

/-- The rows of the user-week table falling inside the exposure window
(`df_exp` in `build_wk4_retention`). -/
def exposureRows (df_user_week : List UserWeekRow) (t0_week : ℤ) : List UserWeekRow :=
  df_user_week.filter (fun r => r.week ∈ exposure_weeks t0_week)

/-- The per-user exposure-window aggregate (`agg` merged onto `df_users`,
before `fillna`): `none` models the NaN a left join leaves for a user with no
exposure-window rows. -/
def mergedAgg (df_users : List UserTraitsRow) (df_user_week : List UserWeekRow)
    (t0_week : ℤ) (field : UserWeekRow → ℚ) : List (Option ℚ) :=
  df_users.map (fun usr =>
    let g := (exposureRows df_user_week t0_week).filter (fun r => r.user_id = usr.user_id)
    if g.isEmpty then none else some (listMean (g.map field)))

/-- `pandas.Series.mean`: mean of the non-null entries, NaN (none) when every
entry is null. -/
def optMean (xs : List (Option ℚ)) : Option ℚ :=
  let vs := xs.filterMap id
  if vs.isEmpty then none else some (listMean vs)

/-- `series.fillna(series.mean())`: nulls are replaced by the column mean;
when the whole column is null the mean is itself NaN and nothing changes. -/
def fillWithMean (xs : List (Option ℚ)) : List (Option ℚ) :=
  xs.map (fun o => match o with
    | some v => some v
    | none => optMean xs)

/-- `np.random.binomial(n=1, p=ps)`: numpy first validates every probability
(raising when one is NaN or outside `[0,1]`), then draws. -/
def drawBinomial1 (O : Oracle) (ps : List (Option ℚ)) (st : RandState) :
    Except ValError (List ℕ) × RandState :=
  if ps.all (fun o => match o with
      | some q => decide (0 ≤ q) && decide (q ≤ 1)
      | none => false)
  then ((.ok ((List.range ps.length).map (fun i => O.binomial1 st.1 st.2 (ps.filterMap id) i))),
        (st.1, st.2 + 1))
  else (.error .badBinomialP, (st.1, st.2 + 1))

/-- `generate.build_wk4_retention`.  The `retention_week` argument is
accepted but never read, exactly as in the source. -/
def build_wk4_retention (O : Oracle) (df_users : List UserTraitsRow)
    (df_user_week : List UserWeekRow) (t0_week retention_week : ℤ)
    (p : DGPParams) (seed : ℤ) (st0 : RandState) :
    Except ValError (List UserRetRow) × RandState :=
  let st := set_seed seed st0
  let conf_mean := fillWithMean (mergedAgg df_users df_user_week t0_week (fun r => r.confidence))
  let edit_mean := fillWithMean (mergedAgg df_users df_user_week t0_week (fun r => r.edit_rate))
  let n := df_users.length
  let (nu, st) := drawVec (fun s c => O.normal s c 0 p.sigma_r) n st
  let p_ret : List (Option ℚ) := (List.range n).map (fun i =>
    let usr := df_users.getD i default
    match conf_mean.getD i none, edit_mean.getD i none with
    | some cm, some em =>
        some (sigmoid O
          (p.alpha_r + p.delta_e * usr.baseline_engagement_z + p.delta_f * usr.feed_quality_z
            + p.delta_c * usr.txn_complexity_z + p.tau_r * cm - p.kappa_r * em + nu.getD i 0))
    | _, _ => none)
  match drawBinomial1 O p_ret st with
  | (.error e, st) => (.error e, st)
  | (.ok ws, st) =>
      (.ok ((List.range n).map (fun i =>
        { base := df_users.getD i default
          conf_mean := conf_mean.getD i none
          edit_mean := edit_mean.getD i none
          wk4_retention := ws.getD i 0 : UserRetRow })), st)

/-- A pandas DataFrame as the validators see it: a column-name list and the
cells of each column (`none` models NaN/null; a name not among `cols` has no
cells). -/
structure DF where
  cols : List String
  data : String → List (Option ℚ)

/-- `schemas._require_columns`. -/
def require_columns (df : DF) (cs : List String) (name : String) : Except ValError Unit :=
  let missing := cs.filter (fun c => c ∉ df.cols)
  if missing.isEmpty then .ok () else .error (.missingColumns name missing)

/-- `schemas._require_no_nulls`. -/
def require_no_nulls (df : DF) (cs : List String) (name : String) : Except ValError Unit :=
  let null_cols := cs.filter (fun c => (df.data c).any (fun o => o.isNone))
  if null_cols.isEmpty then .ok () else .error (.nullColumns name null_cols)

/-- The rows `df[(df[col] < lo) | (df[col] > hi)]` of `_require_range`; a
null compares false on both sides, as NaN does in pandas. -/
def outOfRangeRows (df : DF) (col : String) (lo hi : ℚ) : List (Option ℚ) :=
  (df.data col).filter (fun o => match o with
    | some v => v < lo ∨ v > hi
    | none => False)

/-- `schemas._require_range`. -/
def require_range (df : DF) (col : String) (lo hi : ℚ) (name : String) : Except ValError Unit :=
  let bad := outOfRangeRows df col lo hi
  if bad.isEmpty then .ok ()
  else .error (.outOfRange name col lo hi bad.length)

/-- The required columns of the user table (`schemas.validate_user_df`). -/
def userRequiredCols : List String :=
  ["user_id", "feed_quality", "txn_complexity", "baseline_engagement",
   "feed_quality_z", "txn_complexity_z", "baseline_engagement_z", "wk4_retention"]

/-- `schemas.validate_user_df`. -/
def validate_user_df (df : DF) : Except ValError Unit := do
  require_columns df userRequiredCols "users"
  require_no_nulls df userRequiredCols "users"
  require_range df "feed_quality" 0 1 "users"
  require_range df "wk4_retention" 0 1 "users"

/-- The required columns of the user-week table
(`schemas.validate_user_week_df`). -/
def userWeekRequiredCols : List String :=
  ["user_id", "week", "confidence", "edit_rate", "n_txn"]

/-- `schemas.validate_user_week_df`. -/
def validate_user_week_df (df : DF) : Except ValError Unit := do
  require_columns df userWeekRequiredCols "user_week"
  require_no_nulls df userWeekRequiredCols "user_week"
  require_range df "confidence" 0 1 "user_week"
  require_range df "edit_rate" 0 1 "user_week"
  if (df.data "week").any (fun o => match o with
      | some v => decide (v < 1)
      | none => false) then
    throw (.mustStartAtOne "user_week" "week")
  if (df.data "n_txn").any (fun o => match o with
      | some v => decide (v < 0)
      | none => false) then
    throw (.mustBeNonNeg "user_week" "n_txn")
  return ()

/-- The user-week table as a DataFrame. -/
def DF.ofUserWeek (rows : List UserWeekRow) : DF where
  cols := ["user_id", "week", "n_txn", "confidence", "edit_rate"]
  data := fun c =>
    if c = "user_id" then rows.map (fun r => some (r.user_id : ℚ))
    else if c = "week" then rows.map (fun r => some (r.week : ℚ))
    else if c = "n_txn" then rows.map (fun r => some (r.n_txn : ℚ))
    else if c = "confidence" then rows.map (fun r => some r.confidence)
    else if c = "edit_rate" then rows.map (fun r => some r.edit_rate)
    else []

/-- The user table returned by `build_wk4_retention` as a DataFrame (traits,
the two diagnostic aggregates, and the outcome). -/
def DF.ofUsers (rows : List UserRetRow) : DF where
  cols := ["user_id", "feed_quality", "txn_complexity", "baseline_engagement",
    "feed_quality_z", "txn_complexity_z", "baseline_engagement_z",
    "conf_mean", "edit_mean", "wk4_retention"]
  data := fun c =>
    if c = "user_id" then rows.map (fun r => some (r.base.user_id : ℚ))
    else if c = "feed_quality" then rows.map (fun r => some r.base.feed_quality)
    else if c = "txn_complexity" then rows.map (fun r => some r.base.txn_complexity)
    else if c = "baseline_engagement" then rows.map (fun r => some r.base.baseline_engagement)
    else if c = "feed_quality_z" then rows.map (fun r => some r.base.feed_quality_z)
    else if c = "txn_complexity_z" then rows.map (fun r => some r.base.txn_complexity_z)
    else if c = "baseline_engagement_z" then rows.map (fun r => some r.base.baseline_engagement_z)
    else if c = "conf_mean" then rows.map (fun r => r.conf_mean)
    else if c = "edit_mean" then rows.map (fun r => r.edit_mean)
    else if c = "wk4_retention" then rows.map (fun r => some (r.wk4_retention : ℚ))
    else []

/-- `generate.generate_dataset`: the three generators in order with one
shared seed, then both validations; any raise aborts the call. -/
def generate_dataset (O : Oracle) (n_users n_weeks seed : ℤ) (p : DGPParams)
    (t0_week retention_week : ℤ) (st0 : RandState) :
    Except ValError (List UserRetRow × List UserWeekRow) × RandState :=
  match generate_user_traits O n_users seed st0 with
  | (.error e, st) => (.error e, st)
  | (.ok df_users, st) =>
    match generate_user_week O df_users n_weeks p seed st with
    | (.error e, st) => (.error e, st)
    | (.ok df_user_week, st) =>
      match build_wk4_retention O df_users df_user_week t0_week retention_week p seed st with
      | (.error e, st) => (.error e, st)
      | (.ok df_ret, st) =>
        match validate_user_week_df (DF.ofUserWeek df_user_week) with
        | .error e => (.error e, st)
        | .ok _ =>
          match validate_user_df (DF.ofUsers df_ret) with
          | .error e => (.error e, st)
          | .ok _ => (.ok (df_ret, df_user_week), st)

instance {e a : Type} [DecidableEq e] [DecidableEq a] : DecidableEq (Except e a) := fun x y =>
  match x, y with
  | .error u, .error v =>
      if h : u = v then .isTrue (by rw [h]) else .isFalse (fun c => h (Except.error.inj c))
  | .ok u, .ok v =>
      if h : u = v then .isTrue (by rw [h]) else .isFalse (fun c => h (Except.ok.inj c))
  | .error _, .ok _ => .isFalse (fun c => Except.noConfusion c)
  | .ok _, .error _ => .isFalse (fun c => Except.noConfusion c)

/-- A concrete oracle for evaluating the pipeline on closed inputs: every
draw is a fixed value satisfying the library guarantees. -/
def O0 : Oracle where
  exp := fun _ => 1
  exp_pos := by intro x; norm_num
  sqrt := fun _ => 0
  sqrt_zero := rfl
  beta := fun _ _ _ _ _ => 1/2
  beta_mem := by intro s c a b i; constructor <;> norm_num
  lognormal := fun _ _ _ _ _ => 1
  poisson := fun _ _ _ _ => 0
  normal := fun _ _ _ _ _ => 0
  binomial1 := fun _ _ _ _ => 0
  binomial1_le := fun _ _ _ _ => Nat.le_succ 0

/-- A second concrete oracle whose `sqrt` is not identically zero, for
exercising the nonzero-standard-deviation branch of `zscore`. -/
def O1 : Oracle where
  exp := fun _ => 1
  exp_pos := by intro x; norm_num
  sqrt := fun x => x
  sqrt_zero := rfl
  beta := fun _ _ _ _ _ => 1/2
  beta_mem := by intro s c a b i; constructor <;> norm_num
  lognormal := fun _ _ _ _ _ => 1
  poisson := fun _ _ _ _ => 0
  normal := fun _ _ _ _ _ => 0
  binomial1 := fun _ _ _ _ => 1
  binomial1_le := fun _ _ _ _ => Nat.le_refl 1

theorem getD_range_map {α : Type} (f : ℕ → α) {n k : ℕ} (d : α) (h : k < n) :
    ((List.range n).map f).getD k d = f k := by
  rw [List.getD_eq_getElem?_getD, List.getElem?_map, List.getElem?_range h]; rfl

theorem sigmoid_pos (O : Oracle) (x : ℚ) : 0 < sigmoid O x := by
  have h := O.exp_pos (-x)
  exact div_pos one_pos (by linarith)

theorem sigmoid_lt_one (O : Oracle) (x : ℚ) : sigmoid O x < 1 := by
  have h := O.exp_pos (-x)
  rw [sigmoid, div_lt_one (by linarith)]
  linarith

/-- C1: the weeks aggregated by `build_wk4_retention` (and hence by
`generate_dataset`) are exactly `t0_week, t0_week+1, t0_week+2, t0_week+3`: a
user-week row enters the exposure aggregation iff its week is one of those
four; and changing only the `retention_week` argument changes nothing in the
output of either function. -/
theorem exposure_window_is_t0_to_t0_add_3_and_retention_week_ignored :
    (∀ t0 : ℤ, exposure_weeks t0 = [t0, t0 + 1, t0 + 2, t0 + 3]) ∧
    (∀ (uw : List UserWeekRow) (t0 : ℤ) (r : UserWeekRow),
      r ∈ exposureRows uw t0 ↔
        r ∈ uw ∧ (r.week = t0 ∨ r.week = t0 + 1 ∨ r.week = t0 + 2 ∨ r.week = t0 + 3)) ∧
    (∀ (O : Oracle) (us : List UserTraitsRow) (uw : List UserWeekRow)
        (t0 rw rw' : ℤ) (p : DGPParams) (seed : ℤ) (st : RandState),
      build_wk4_retention O us uw t0 rw p seed st
        = build_wk4_retention O us uw t0 rw' p seed st) ∧
    (∀ (O : Oracle) (n_users n_weeks seed : ℤ) (p : DGPParams)
        (t0 rw rw' : ℤ) (st : RandState),
      generate_dataset O n_users n_weeks seed p t0 rw st
        = generate_dataset O n_users n_weeks seed p t0 rw' st) := by
  refine ⟨fun t0 => ?_, fun uw t0 r => ?_, fun _ _ _ _ _ _ _ _ _ => rfl,
    fun _ _ _ _ _ _ _ _ _ => rfl⟩
  · simp [exposure_weeks, show List.range 4 = [0, 1, 2, 3] from rfl]
  · simp [exposureRows, exposure_weeks, List.mem_filter,
      show List.range 4 = [0, 1, 2, 3] from rfl]

/-- C2 counterexample: `n_users = 0` is non-positive, yet
`generate_user_traits` does not reject it — it returns an empty table.  (The
source performs no input validation; only a negative count raises, from
numpy's size check in the first draw.) -/
theorem generate_user_traits_does_not_reject_zero_users :
    (generate_user_traits O0 0 7 (0, 0)).1 = .ok [] := by decide

/-- C2 (amended): a negative `n_users` raises synchronously (numpy rejects
the negative `size` inside the first draw call, before any value is drawn),
and negativity is the only error condition: every `n_users ≥ 0` — including
0 — yields a table with `n_users` rows. -/
theorem generate_user_traits_error_conditions (O : Oracle) (n_users seed : ℤ)
    (st : RandState) :
    (n_users < 0 →
      (generate_user_traits O n_users seed st).1 = .error .negativeDimensions) ∧
    (0 ≤ n_users →
      ∃ rows, (generate_user_traits O n_users seed st).1 = .ok rows
        ∧ (rows.length : ℤ) = n_users) := by
  constructor
  · intro h
    simp [generate_user_traits, h]
  · intro h
    simp only [generate_user_traits, not_lt.mpr h, if_false, drawVec, set_seed]
    exact ⟨_, rfl, by simp [Int.toNat_of_nonneg h]⟩

/-- Evaluation of the amended C2 at concrete inputs: `-1` raises, `0`
succeeds with an empty table. -/
theorem generate_user_traits_error_conditions_witness :
    ((-1 : ℤ) < 0 ∧
      (generate_user_traits O0 (-1) 7 (0, 0)).1 = .error .negativeDimensions) ∧
    ((0 : ℤ) ≤ 0 ∧
      ∃ rows, (generate_user_traits O0 0 7 (0, 0)).1 = .ok rows
        ∧ (rows.length : ℤ) = 0) :=
  ⟨⟨by decide, (generate_user_traits_error_conditions O0 (-1) 7 (0, 0)).1 (by decide)⟩,
   ⟨by decide, (generate_user_traits_error_conditions O0 0 7 (0, 0)).2 (by decide)⟩⟩

/-- C3: the pipeline output is a function of the explicit arguments alone;
in particular the state of the process-global random generator at call time
is irrelevant, because each generator reinstalls the seed, so two
invocations with the same seed, counts and parameter bundle return identical
pairs of tables cell for cell. -/
theorem generate_dataset_deterministic (O : Oracle) (n_users n_weeks seed : ℤ)
    (p : DGPParams) (t0_week retention_week : ℤ) (st st' : RandState) :
    (generate_dataset O n_users n_weeks seed p t0_week retention_week st).1
      = (generate_dataset O n_users n_weeks seed p t0_week retention_week st').1 := rfl

theorem zscore_singleton (O : Oracle) (a : ℚ) : zscore O [a] = [0] := by
  simp [zscore, listMean, O.sqrt_zero]

/-- C7: `zscore` divides the centred values by the population standard
deviation when it is nonzero and returns all zeros when it is zero; in
particular `generate_user_traits` with a single user produces exactly-zero
z-score columns (the singleton variance is 0 and `sqrt 0 = 0`), with no
division by zero. -/
theorem zscore_spec :
    (∀ (O : Oracle) (xs : List ℚ), O.sqrt (listVar xs) ≠ 0 →
      zscore O xs = xs.map (fun v => (v - listMean xs) / O.sqrt (listVar xs))) ∧
    (∀ (O : Oracle) (xs : List ℚ), O.sqrt (listVar xs) = 0 →
      zscore O xs = xs.map (fun _ => 0)) ∧
    (∀ (O : Oracle) (seed : ℤ) (st : RandState) (rows : List UserTraitsRow)
        (st' : RandState),
      generate_user_traits O 1 seed st = (.ok rows, st') →
      rows.map (fun r => (r.feed_quality_z, r.txn_complexity_z, r.baseline_engagement_z))
        = [(0, 0, 0)]) := by
  refine ⟨fun O xs h => ?_, fun O xs h => ?_, fun O seed st rows st' h => ?_⟩
  · have h' : O.sqrt (listMean (xs.map (fun v => (v - listMean xs) ^ 2))) ≠ 0 := h
    simp only [zscore, if_neg h']
    rfl
  · have h' : O.sqrt (listMean (xs.map (fun v => (v - listMean xs) ^ 2))) = 0 := h
    simp only [zscore, if_pos h']
  · simp only [generate_user_traits, drawVec, set_seed,
      show ¬ ((1 : ℤ) < 0) by decide, if_false] at h
    rw [Prod.mk.injEq] at h
    obtain ⟨h1, _⟩ := h
    have h2 := Except.ok.inj h1
    subst h2
    simp [show (1 : ℤ).toNat = 1 from rfl, show List.range 1 = [0] from rfl,
      zscore_singleton]

/-- Evaluation of C7 at concrete inputs: a two-point list with nonzero
standard deviation, a singleton with zero standard deviation, and a one-user
run of the trait generator. -/
theorem zscore_spec_witness :
    (O1.sqrt (listVar [0, 1]) ≠ 0 ∧
      zscore O1 [0, 1]
        = ([0, 1] : List ℚ).map (fun v => (v - listMean [0, 1]) / O1.sqrt (listVar [0, 1]))) ∧
    (O0.sqrt (listVar [3]) = 0 ∧ zscore O0 [3] = ([3] : List ℚ).map (fun _ => 0)) ∧
    (generate_user_traits O0 1 7 (0, 0)
        = (.ok [{ user_id := 1, feed_quality := 1/2, txn_complexity := 1,
                  baseline_engagement := 1, feed_quality_z := 0, txn_complexity_z := 0,
                  baseline_engagement_z := 0 }], (7, 3)) ∧
      ([{ user_id := 1, feed_quality := 1/2, txn_complexity := 1,
          baseline_engagement := 1, feed_quality_z := 0, txn_complexity_z := 0,
          baseline_engagement_z := 0 }] : List UserTraitsRow).map
          (fun r => (r.feed_quality_z, r.txn_complexity_z, r.baseline_engagement_z))
        = [(0, 0, 0)]) :=
  have h3 : generate_user_traits O0 1 7 (0, 0)
      = (.ok [{ user_id := 1, feed_quality := 1/2, txn_complexity := 1,
                baseline_engagement := 1, feed_quality_z := 0, txn_complexity_z := 0,
                baseline_engagement_z := 0 }], (7, 3)) := by
    norm_num [generate_user_traits, drawVec, set_seed, O0,
      show List.range 1 = [0] from rfl, zscore_singleton]
  ⟨⟨by norm_num [O1, listVar, listMean], zscore_spec.1 O1 [0, 1] (by norm_num [O1, listVar, listMean])⟩,
   ⟨by decide, zscore_spec.2.1 O0 [3] (by decide)⟩,
   ⟨h3, zscore_spec.2.2 O0 7 (0, 0) _ (7, 3) h3⟩⟩

/-- C6: in every row produced by `generate_user_week`, `edit_rate` is the
logistic squash of
`alpha_e - tau_e * confidence + g_c * complexity_z + g_e * engagement_z
 + g_f * (-feed_z) + noise`, where `confidence` is that row's realized
(sigmoid-squashed) confidence value and the noise is the Normal(0, sigma_e)
draw of the third drawing call. -/
theorem edit_rate_formula (O : Oracle) (df_users : List UserTraitsRow) (n_weeks : ℤ)
    (p : DGPParams) (seed : ℤ) (st : RandState) (rows : List UserWeekRow)
    (st' : RandState)
    (h : generate_user_week O df_users n_weeks p seed st = (.ok rows, st'))
    (k : ℕ) (hk : k < rows.length) :
    (rows.getD k default).edit_rate
      = sigmoid O (p.alpha_e - p.tau_e * (rows.getD k default).confidence
          + p.g_c * (df_users.getD (k / n_weeks.toNat) default).txn_complexity_z
          + p.g_e * (df_users.getD (k / n_weeks.toNat) default).baseline_engagement_z
          + p.g_f * (-(df_users.getD (k / n_weeks.toNat) default).feed_quality_z)
          + O.normal seed 2 0 p.sigma_e k) := by
  by_cases hw : n_weeks < 0
  · simp [generate_user_week, hw, set_seed] at h
  · simp only [generate_user_week, hw, if_false, drawVec, drawVecNat, set_seed] at h
    rw [Prod.mk.injEq] at h
    obtain ⟨h1, _⟩ := h
    have h2 := Except.ok.inj h1
    subst h2
    rw [List.length_map, List.length_range] at hk
    rw [getD_range_map _ default hk]
    norm_num [getD_range_map _ (0 : ℚ) hk, List.getElem?_range hk]

/-- Evaluation of C6 on a one-user, one-week run. -/
theorem edit_rate_formula_witness :
    (generate_user_week O0 [default] 1 {} 7 (0, 0)
        = (.ok [{ user_id := 0, week := 1, n_txn := 0, confidence := 1/2,
                  edit_rate := 1/2 }], (7, 3)) ∧
      0 < ([{ user_id := 0, week := 1, n_txn := 0, confidence := 1/2,
              edit_rate := 1/2 }] : List UserWeekRow).length) ∧
    (([{ user_id := 0, week := 1, n_txn := 0, confidence := 1/2,
         edit_rate := 1/2 }] : List UserWeekRow).getD 0 default).edit_rate
      = sigmoid O0 (({} : DGPParams).alpha_e
          - ({} : DGPParams).tau_e
            * (([{ user_id := 0, week := 1, n_txn := 0, confidence := 1/2,
                   edit_rate := 1/2 }] : List UserWeekRow).getD 0 default).confidence
          + ({} : DGPParams).g_c
            * (([default] : List UserTraitsRow).getD (0 / (1 : ℤ).toNat) default).txn_complexity_z
          + ({} : DGPParams).g_e
            * (([default] : List UserTraitsRow).getD (0 / (1 : ℤ).toNat) default).baseline_engagement_z
          + ({} : DGPParams).g_f
            * (-(([default] : List UserTraitsRow).getD (0 / (1 : ℤ).toNat) default).feed_quality_z)
          + O0.normal 7 2 0 ({} : DGPParams).sigma_e 0) :=
  have h : generate_user_week O0 [default] 1 {} 7 (0, 0)
      = (.ok [{ user_id := 0, week := 1, n_txn := 0, confidence := 1/2,
                edit_rate := 1/2 }], (7, 3)) := by
    norm_num [generate_user_week, drawVec, drawVecNat, set_seed, O0, sigmoid,
      show List.range 1 = [0] from rfl]
    rfl
  ⟨⟨h, by decide⟩,
   edit_rate_formula O0 [default] 1 {} 7 (0, 0) _ (7, 3) h 0 (by decide)⟩

theorem getD_replicate_none {n i : ℕ} :
    (List.replicate n (none : Option ℚ)).getD i none = none := by
  rw [List.getD_eq_getElem?_getD, List.getElem?_replicate]
  by_cases h : i < n <;> simp [h]

/-- C10: when no user-week row at all falls in the exposure window (and the
user table is nonempty), the grand-mean fallback is itself NaN, every user's
aggregate stays NaN, and `build_wk4_retention` raises at the Bernoulli draw
instead of returning a table. -/
theorem build_wk4_retention_fails_when_window_empty (O : Oracle)
    (us : List UserTraitsRow) (uw : List UserWeekRow) (t0 rw : ℤ) (p : DGPParams)
    (seed : ℤ) (st : RandState) (hus : us ≠ [])
    (hw : ∀ r ∈ uw, r.week ∉ exposure_weeks t0) :
    optMean (mergedAgg us uw t0 (fun r => r.confidence)) = none ∧
    fillWithMean (mergedAgg us uw t0 (fun r => r.confidence))
      = List.replicate us.length none ∧
    (build_wk4_retention O us uw t0 rw p seed st).1 = .error .badBinomialP := by
  have hexp : exposureRows uw t0 = [] := by
    rw [exposureRows, List.filter_eq_nil_iff]
    intro r hr
    simpa using hw r hr
  have hmc : mergedAgg us uw t0 (fun r => r.confidence) = us.map (fun _ => none) := by
    simp [mergedAgg, hexp]
  have hme : mergedAgg us uw t0 (fun r => r.edit_rate) = us.map (fun _ => none) := by
    simp [mergedAgg, hexp]
  have hopt : optMean (us.map (fun (_ : UserTraitsRow) => (none : Option ℚ))) = none := by
    simp [optMean, List.filterMap_map]
  have hoptr : ∀ n : ℕ, optMean (List.replicate n (none : Option ℚ)) = none := by
    intro n
    have hnil : (List.replicate n (none : Option ℚ)).filterMap id = [] := by
      rw [List.filterMap_eq_nil_iff]
      intro a ha
      simp [List.eq_of_mem_replicate ha]
    simp [optMean, hnil]
  have hfill : fillWithMean (us.map (fun (_ : UserTraitsRow) => (none : Option ℚ)))
      = List.replicate us.length none := by
    simp [fillWithMean, hopt, hoptr, List.map_const']
  refine ⟨by rw [hmc]; exact hopt, by rw [hmc]; exact hfill, ?_⟩
  simp only [build_wk4_retention, drawVec, set_seed, hmc, hme, hfill, drawBinomial1,
    getD_replicate_none]
  rw [if_neg]
  intro hall
  rw [List.all_eq_true] at hall
  have h0 : (none : Option ℚ) ∈ (List.range us.length).map
      (fun _ => (none : Option ℚ)) := by
    refine List.mem_map.mpr ⟨0, List.mem_range.mpr ?_, rfl⟩
    exact List.length_pos.mpr hus
  simpa using hall _ h0

/-- Evaluation of C10: one user, an empty user-week table, exposure window
starting at week 9. -/
theorem build_wk4_retention_fails_when_window_empty_witness :
    (([default] : List UserTraitsRow) ≠ [] ∧
      ∀ r ∈ ([] : List UserWeekRow), r.week ∉ exposure_weeks 9) ∧
    (optMean (mergedAgg [default] [] 9 (fun r => r.confidence)) = none ∧
      fillWithMean (mergedAgg [default] [] 9 (fun r => r.confidence))
        = List.replicate ([default] : List UserTraitsRow).length none ∧
      (build_wk4_retention O0 [default] [] 9 13 {} 7 (0, 0)).1
        = .error .badBinomialP) :=
  ⟨⟨by decide, by simp⟩,
   build_wk4_retention_fails_when_window_empty O0 [default] [] 9 13 {} 7 (0, 0)
     (by decide) (by simp)⟩

end ECC
